import Mathlib

/-!
Shallow embedding of `src/index.js` of node-hotworddetector.

The source keeps its mutable state in module-level variables
(`let audioRecorder, models, detector, detectorOptions;`) shared by every
`HotwordDetector` instance, together with the module constants
`defaultModel` and `defaultDetector`, which `Object.assign` mutates in
place during construction.  We therefore embed the whole module state as
one record `ProcState`, and each operation of the façade as a function
`ProcState → ProcState × effects`.

External collaborators are modelled at their narrow interfaces:
`Models.add` appends the supplied model record's field values; the snowboy
`Detector` is an identified record whose `on`-handlers, once attached by
`setupDetector`, are never removed by any code path (the source has no
`removeListener`/`off` call); the audio recorder is a record plus a
coarse run state.  Signals arriving on a detector instance are handled by
`handleSignal`, the embedding of the four handler closures installed in
`setupDetector`.
-/

namespace Hotword

/-- An acoustic model record: `{ file, hotwords }` as in `defaultModel`
(src/index.js lines 10-13). -/
structure Model where
  file : String
  hotwords : String
deriving Repr, DecidableEq

/-- A caller-supplied model datum: a partial record merged over the default
with `Object.assign` (a field that is absent inherits the default). -/
structure ModelOverride where
  file : Option String
  hotwords : Option String
deriving Repr, DecidableEq

/-- The detector configuration object.  `defaultDetector` initially has only
`resource`; `Object.assign` in the constructor adds a `models` field to it,
hence `models : Option _`. -/
structure DetectorBase where
  resource : String
  models : Option (List Model)
deriving Repr, DecidableEq

/-- Caller-supplied detector data merged over `defaultDetector`.  It may
itself carry a `models` field (which the source's final `{ models: models }`
assignment overrides). -/
structure DetectorOverride where
  resource : Option String
  models : Option (List Model)
deriving Repr, DecidableEq

/-- The `AudioRecorder` construction options (src/index.js lines 88-92). -/
structure Recorder where
  program : String
  sampleRate : Nat
  threshold : Nat
deriving Repr, DecidableEq

/-- Coarse run state of the module-level audio recorder: which lifecycle
command was last issued to it. -/
inductive RecState
  | idle
  | started
  | stopped
  | paused
deriving Repr, DecidableEq

/-- A snowboy `Detector` instance created by `setupDetector`.  `id` is a
creation serial number (to state freshness), `options` the
`detectorOptions` value passed to `new Detector(...)`, `ownerId` the façade
instance captured by the four handler closures, and `wired` records that
the `on`-handlers are attached (the source never detaches them). -/
structure DetectorInst where
  id : Nat
  options : Option DetectorBase
  ownerId : Nat
  wired : Bool
deriving Repr, DecidableEq

/-- A façade instance: its identity and whether a logger was supplied
(`this.logger = logger`). -/
structure Instance where
  id : Nat
  hasLogger : Bool
deriving Repr, DecidableEq

/-- The module-level state of src/index.js: the two default objects
(mutable, because `Object.assign` targets them) and the four shared
variables of lines 18-21, plus the recorder run state, the current pipe
connection, and a serial counter for detector creations. -/
structure ProcState where
  defaultModel : Model
  defaultDetector : DetectorBase
  audioRecorder : Option Recorder
  models : Option (List Model)
  detector : Option DetectorInst
  detectorOptions : Option DetectorBase
  recorderState : RecState
  pipedTo : Option Nat
  nextDetectorId : Nat
deriving Repr, DecidableEq

/-- Side effects of an operation: `logger.log` calls, `logger.warn` calls,
and the ids of detector instances on which `reset()` was invoked. -/
structure Eff where
  logs : List String
  warns : List String
  resets : List Nat
deriving Repr, DecidableEq

/-- A signal raised by the detection engine on a detector instance. -/
inductive Signal
  | error
  | hotword (index : Nat) (label : String) (buffer : List Nat)
  | silence
  | sound (buffer : List Nat)
deriving Repr, DecidableEq

/-- An event emitted by the façade to its own listeners. -/
inductive Ev
  | error (msg : String)
  | hotword (index : Nat) (label : String) (buffer : List Nat)
  | silence
  | sound (buffer : List Nat)
deriving Repr, DecidableEq

/-- The built-in `defaultModel` constant (src/index.js lines 10-13). -/
def defaultModelInit : Model :=
  { file := "./node_modules/snowboy/resources/snowboy.umdl"
    hotwords := "snowboy" }

/-- The built-in `defaultDetector` constant (src/index.js lines 14-16);
it has no `models` field until the constructor's `Object.assign` adds one. -/
def defaultDetectorInit : DetectorBase :=
  { resource := "./node_modules/snowboy/resources/common.res"
    models := none }

/-- Module state right after `require`: defaults pristine, the four shared
variables undefined. -/
def initState : ProcState :=
  { defaultModel := defaultModelInit
    defaultDetector := defaultDetectorInit
    audioRecorder := none
    models := none
    detector := none
    detectorOptions := none
    recorderState := RecState.idle
    pipedTo := none
    nextDetectorId := 0 }

/-- View a full model record as a model datum with every field present:
used for the `modelData = [ defaultModel ]` substitution, where the default
object itself becomes the array element. -/
def ovOf (m : Model) : ModelOverride :=
  { file := some m.file, hotwords := some m.hotwords }

/-- One `Object.assign(defaultModel, modelData[i])`: supplied fields win,
absent fields keep the target's values.  The result is also the new value
of the (mutated) target `defaultModel`. -/
def mergeStep (dm : Model) (ov : ModelOverride) : Model :=
  { file := ov.file.getD dm.file
    hotwords := ov.hotwords.getD dm.hotwords }

/-- The constructor's model loop: for each datum, merge it onto the running
`defaultModel` (mutating it) and `models.add` the merged record.  Returns
the final `defaultModel` value and the list of added model records. -/
def addAll (dm : Model) : List ModelOverride → Model × List Model
  | [] => (dm, [])
  | ov :: rest =>
    ((addAll (mergeStep dm ov) rest).1,
     mergeStep dm ov :: (addAll (mergeStep dm ov) rest).2)

/-- `Object.assign(defaultDetector, detectorData, { models: models })`:
`detectorData` fields win over the base, and the literal `{ models }`
object is assigned last, so the fresh collection always wins the `models`
field, even when `detectorData` carries one.  The (mutated) target
`defaultDetector` becomes this merged object. -/
def assignDetector (base : DetectorBase) (ov : DetectorOverride)
    (ms : List Model) : DetectorBase :=
  { resource := ov.resource.getD base.resource
    models := some ms }

/-- The `HotwordDetector` constructor (src/index.js lines 68-100) acting on
the module state.  `modelData`, `detectorData`, `recordingProgram` are the
caller arguments (a JS `undefined` model array behaves like the empty
list: both take the `[ defaultModel ]` branch); `inst` carries the
identity and `this.logger`. -/
def constructorFn (modelData : List ModelOverride)
    (detectorData : DetectorOverride) (recordingProgram : Option String)
    (inst : Instance) (s : ProcState) : ProcState × Eff :=
  let modelData1 :=
    if modelData.length < 1 then [ovOf s.defaultModel] else modelData
  let r := addAll s.defaultModel modelData1
  let dOpts := assignDetector s.defaultDetector detectorData r.2
  let rec0 : Recorder :=
    { program := recordingProgram.getD "rec"
      sampleRate := 16000
      threshold := 0 }
  ({ s with
      defaultModel := r.1
      models := some r.2
      defaultDetector := dOpts
      detectorOptions := some dOpts
      audioRecorder := some rec0
      recorderState := RecState.idle },
   { logs := if inst.hasLogger then ["HotwordDetector initialized."] else []
     warns := []
     resets := [] })

/-- `setupDetector(instance)` (src/index.js lines 27-57): reset the previous
detector if one exists, then create a fresh `Detector(detectorOptions)` and
attach the four forwarding handlers.  Returns the new state and the list of
`reset()` calls made. -/
def setupDetector (inst : Instance) (s : ProcState) :
    ProcState × List Nat :=
  let resets := match s.detector with
    | some d => [d.id]
    | none => []
  let d : DetectorInst :=
    { id := s.nextDetectorId
      options := s.detectorOptions
      ownerId := inst.id
      wired := true }
  ({ s with detector := some d, nextDetectorId := s.nextDetectorId + 1 },
   resets)

/-- `audioRecorder...stream().unpipe(detector)`: sever the pipe into the
current detector (with `detector` undefined, Node's `unpipe()` severs every
pipe). -/
def unpipeCurrent (s : ProcState) : Option Nat :=
  match s.detector with
  | none => none
  | some d => if s.pipedTo = some d.id then none else s.pipedTo

/-- `start()` (src/index.js lines 105-114): rebuild the detector, start the
recorder, pipe its stream into the new detector, optionally log. -/
def startFn (inst : Instance) (s : ProcState) : ProcState × Eff :=
  let s1 := (setupDetector inst s).1
  ({ s1 with
      recorderState := RecState.started
      pipedTo := s1.detector.map DetectorInst.id },
   { logs :=
      if inst.hasLogger then ["HotwordDetector: Started detecting."] else []
     warns := []
     resets := (setupDetector inst s).2 })

/-- `stop()` (src/index.js lines 119-127): stop the recorder and unpipe;
the detector variable and its attached handlers are left untouched. -/
def stopFn (inst : Instance) (s : ProcState) : ProcState × Eff :=
  ({ s with
      recorderState := RecState.stopped
      pipedTo := unpipeCurrent s },
   { logs :=
      if inst.hasLogger then ["HotwordDetector: Stopped detecting."] else []
     warns := []
     resets := [] })

/-- `pause()` (src/index.js lines 132-140): pause the recorder and unpipe;
the detector variable and its attached handlers are left untouched. -/
def pauseFn (inst : Instance) (s : ProcState) : ProcState × Eff :=
  ({ s with
      recorderState := RecState.paused
      pipedTo := unpipeCurrent s },
   { logs :=
      if inst.hasLogger then ["HotwordDetector: Paused detecting."] else []
     warns := []
     resets := [] })

/-- `resume()` (src/index.js lines 145-153): rebuild the detector, resume
the recorder, pipe into the new detector, optionally log. -/
def resumeFn (inst : Instance) (s : ProcState) : ProcState × Eff :=
  let s1 := (setupDetector inst s).1
  ({ s1 with
      recorderState := RecState.started
      pipedTo := s1.detector.map DetectorInst.id },
   { logs :=
      if inst.hasLogger then ["HotwordDetector: Resumed detecting."] else []
     warns := []
     resets := (setupDetector inst s).2 })

/-- Outcome of a signal arriving on a detector instance: the module state
(the handler bodies never touch it), the events emitted on the owning
façade instance, and the `log`/`warn` calls made. -/
structure SigResult where
  state : ProcState
  events : List Ev
  logs : List String
  warns : List String
deriving Repr, DecidableEq

/-- The four handler closures attached in `setupDetector` (src/index.js
lines 36-56), as they run when the detector instance `d` raises `sig` on
behalf of the façade instance `inst`.  If (counterfactually) the handlers
were not attached, nothing would be forwarded. -/
def handleSignal (inst : Instance) (s : ProcState) (d : DetectorInst)
    (sig : Signal) : SigResult :=
  if d.wired then
    match sig with
    | Signal.error =>
      { state := s
        events := [Ev.error "HotwordDetector: Detector error."]
        logs := []
        warns :=
          if inst.hasLogger then ["HotwordDetector: Detector error."]
          else [] }
    | Signal.hotword index label buffer =>
      { state := s
        events := [Ev.hotword index label buffer]
        logs :=
          if inst.hasLogger then
            ["HotwordDetector; hotword detected; index: " ++
              toString index ++ "; hotword: " ++ label ++ "."]
          else []
        warns := [] }
    | Signal.silence =>
      { state := s, events := [Ev.silence], logs := [], warns := [] }
    | Signal.sound buffer =>
      { state := s, events := [Ev.sound buffer], logs := [], warns := [] }
  else
    { state := s, events := [], logs := [], warns := [] }

/-- The module state after `new HotwordDetector(M, dd, rp)` followed by
`start()` on a fresh module. -/
def afterStart (modelData : List ModelOverride)
    (detectorData : DetectorOverride) (recordingProgram : Option String)
    (i : Nat) (hl : Bool) : ProcState :=
  (startFn ⟨i, hl⟩
    (constructorFn modelData detectorData recordingProgram ⟨i, hl⟩
      initState).1).1

/-- The model loop adds exactly one model record per supplied datum. -/
theorem addAll_snd_length (dm : Model) (l : List ModelOverride) :
    ((addAll dm l).2).length = l.length := by
  induction l generalizing dm with
  | nil => rfl
  | cons ov rest ih => simp [addAll, ih]

/-- Module state after the first construction of the C1 scenario:
`new HotwordDetector([{ file: "a.umdl" }])` on a fresh module. -/
def c1s1 : ProcState :=
  (constructorFn [⟨some "a.umdl", none⟩] ⟨none, none⟩ none ⟨1, false⟩
    initState).1

/-- Module state after the second construction of the C1 scenario:
`new HotwordDetector([{ hotwords: "x" }])` in the same process. -/
def c1s2 : ProcState :=
  (constructorFn [⟨none, some "x"⟩] ⟨none, none⟩ none ⟨2, false⟩ c1s1).1

/-- Claim C1 fails on the code: `Object.assign(defaultModel, modelData[i])`
mutates the shared `defaultModel`, so after a first construction overriding
only `file`, the shared default's `file` is the override value, and a
second construction overriding only `hotwords` resolves a model whose
`file` is the first construction's override, not the built-in default. -/
theorem C1_default_mutated :
    c1s1.defaultModel.file = "a.umdl"
  ∧ c1s1.defaultModel ≠ defaultModelInit
  ∧ c1s2.models = some [{ file := "a.umdl", hotwords := "x" }]
  ∧ defaultModelInit.file = "./node_modules/snowboy/resources/snowboy.umdl"
    := by decide

/-- Module state after the first construction of the C2 scenario. -/
def c2s1 : ProcState :=
  (constructorFn [] ⟨some "r1", none⟩ (some "arecord") ⟨1, false⟩
    initState).1

/-- Module state after the second construction of the C2 scenario. -/
def c2s2 : ProcState :=
  (constructorFn [] ⟨some "r2", none⟩ (some "sox") ⟨2, false⟩ c2s1).1

/-- Claim C2 fails on the code: recorder, model collection and detector
options live in module-level variables, so a second construction replaces
the recorder and configuration the first instance's methods operate on,
and a second instance's `start()` installs ITS detector in the single
shared slot. -/
theorem C2_shared_state_overwritten :
    c2s1.audioRecorder.map Recorder.program = some "arecord"
  ∧ c2s2.audioRecorder.map Recorder.program = some "sox"
  ∧ c2s1.audioRecorder ≠ c2s2.audioRecorder
  ∧ c2s1.detectorOptions ≠ c2s2.detectorOptions
  ∧ (startFn ⟨2, false⟩ c2s2).1.detector.map DetectorInst.ownerId = some 2
    := by decide

/-- The façade instance of the C3 scenario. -/
def inst3 : Instance := ⟨3, false⟩

/-- Module state after `new HotwordDetector()`, `start()`, `stop()`. -/
def c3stopped : ProcState :=
  (stopFn inst3
    (startFn inst3 (constructorFn [] ⟨none, none⟩ none inst3 initState).1).1).1

/-- Claim C3 fails on the code: after `stop()` the stream is unpiped
(`pipedTo = none`) but the four `on`-handlers attached in `setupDetector`
are never removed, so a synthetic `hotword` signal on the disconnected
detector still produces a listener event. -/
theorem C3_stop_leaks_events :
    c3stopped.pipedTo = none
  ∧ c3stopped.detector.map (fun d =>
      (handleSignal inst3 c3stopped d (Signal.hotword 0 "snowboy" [1, 2])).events)
      = some [Ev.hotword 0 "snowboy" [1, 2]]
  ∧ (some [Ev.hotword 0 "snowboy" [1, 2]] : Option (List Ev)) ≠ some []
    := by decide

/-- Claim C4: `start()` and `resume()` each create a brand-new detector
(its serial is the current counter value, distinct from any live one), and
when a previous detector exists it is `reset()` before being replaced. -/
theorem C4_fresh_detector_and_reset (inst : Instance) (s : ProcState)
    (h : s.detector.all (fun d => d.id < s.nextDetectorId) = true) :
    (∃ d, (startFn inst s).1.detector = some d ∧ d.id = s.nextDetectorId
      ∧ (startFn inst s).2.resets = (s.detector.map DetectorInst.id).toList
      ∧ (∀ d0, s.detector = some d0 → d0.id ≠ d.id))
  ∧ (∃ d, (resumeFn inst s).1.detector = some d ∧ d.id = s.nextDetectorId
      ∧ (resumeFn inst s).2.resets = (s.detector.map DetectorInst.id).toList
      ∧ (∀ d0, s.detector = some d0 → d0.id ≠ d.id)) := by
  have hlt : ∀ d0, s.detector = some d0 → d0.id < s.nextDetectorId := by
    intro d0 h0
    rw [h0] at h
    simpa [Option.all] using h
  constructor
  · refine ⟨_, rfl, rfl, ?_, ?_⟩
    · cases hd : s.detector <;>
        simp [startFn, setupDetector, hd, Option.toList]
    · intro d0 h0
      exact Nat.ne_of_lt (hlt d0 h0)
  · refine ⟨_, rfl, rfl, ?_, ?_⟩
    · cases hd : s.detector <;>
        simp [resumeFn, setupDetector, hd, Option.toList]
    · intro d0 h0
      exact Nat.ne_of_lt (hlt d0 h0)

/-- A state with a live detector, used to instantiate C4. -/
def c4state : ProcState := afterStart [] ⟨none, none⟩ none 0 false

/-- Witness for C4 at a state holding a live detector. -/
theorem C4_fresh_detector_and_reset_witness :
    (c4state.detector.all (fun d => d.id < c4state.nextDetectorId) = true)
  ∧ ((∃ d, (startFn ⟨5, true⟩ c4state).1.detector = some d
        ∧ d.id = c4state.nextDetectorId
        ∧ (startFn ⟨5, true⟩ c4state).2.resets
            = (c4state.detector.map DetectorInst.id).toList
        ∧ (∀ d0, c4state.detector = some d0 → d0.id ≠ d.id))
    ∧ (∃ d, (resumeFn ⟨5, true⟩ c4state).1.detector = some d
        ∧ d.id = c4state.nextDetectorId
        ∧ (resumeFn ⟨5, true⟩ c4state).2.resets
            = (c4state.detector.map DetectorInst.id).toList
        ∧ (∀ d0, c4state.detector = some d0 → d0.id ≠ d.id))) :=
  ⟨by decide, C4_fresh_detector_and_reset ⟨5, true⟩ c4state (by decide)⟩

/-- Claim C5: the resolved model collection has size `max(1, |M|)` for
every model-spec sequence M, and with no models supplied the single
resolved entry is the built-in default model. -/
theorem C5_model_collection_size (M : List ModelOverride)
    (dd : DetectorOverride) (rp : Option String) (inst : Instance)
    (s : ProcState) :
    (constructorFn M dd rp inst s).1.models.map List.length
        = some (max 1 M.length)
  ∧ (constructorFn [] dd rp inst initState).1.models
        = some [defaultModelInit] := by
  constructor
  · cases M with
    | nil => simp [constructorFn, addAll, ovOf]
    | cons a l =>
      have h1 : ¬ (a :: l).length < 1 := by simp
      simp [constructorFn, h1, addAll_snd_length]
  · rfl

/-- Claim C6: after `start()`, a `hotword` signal with arguments
`(index, label, buffer)` is forwarded as a `hotword` event with exactly
the same three arguments. -/
theorem C6_hotword_forward_unchanged (index : Nat) (label : String)
    (buffer : List Nat) (M : List ModelOverride) (dd : DetectorOverride)
    (rp : Option String) (i : Nat) (hl : Bool) :
    (afterStart M dd rp i hl).detector.map (fun d =>
      (handleSignal ⟨i, hl⟩ (afterStart M dd rp i hl) d
        (Signal.hotword index label buffer)).events)
      = some [Ev.hotword index label buffer] := rfl

/-- Claim C7: a detection-engine fault is surfaced as an `error` event with
the fixed message, warned exactly when a logger is present, with no `log`
call, and the module state (in particular the recorder run state) is left
untouched — capture is never stopped by the handler, and the handler is a
total function (nothing is thrown). -/
theorem C7_error_event_fixed_message (inst : Instance) (s : ProcState)
    (d : DetectorInst) (h : d.wired = true) :
    (handleSignal inst s d Signal.error).events
        = [Ev.error "HotwordDetector: Detector error."]
  ∧ (handleSignal inst s d Signal.error).warns
        = (if inst.hasLogger then ["HotwordDetector: Detector error."]
           else [])
  ∧ (handleSignal inst s d Signal.error).logs = []
  ∧ (handleSignal inst s d Signal.error).state = s := by
  simp [handleSignal, h]

/-- Witness for C7 at a concrete wired detector. -/
theorem C7_error_event_fixed_message_witness :
    ((⟨0, none, 0, true⟩ : DetectorInst).wired = true)
  ∧ ((handleSignal ⟨0, true⟩ initState ⟨0, none, 0, true⟩ Signal.error).events
        = [Ev.error "HotwordDetector: Detector error."]
    ∧ (handleSignal ⟨0, true⟩ initState ⟨0, none, 0, true⟩ Signal.error).warns
        = (if (Instance.mk 0 true).hasLogger then
            ["HotwordDetector: Detector error."] else [])
    ∧ (handleSignal ⟨0, true⟩ initState ⟨0, none, 0, true⟩ Signal.error).logs
        = []
    ∧ (handleSignal ⟨0, true⟩ initState ⟨0, none, 0, true⟩ Signal.error).state
        = initState) :=
  ⟨rfl, C7_error_event_fixed_message ⟨0, true⟩ initState ⟨0, none, 0, true⟩ rfl⟩

/-- Claim C8: with no logger, construction and every lifecycle method make
no `log` or `warn` call, and the resulting module state (and reset effect)
is identical to the run with a logger — logging never alters any other
effect, and every operation is a total function (nothing is thrown). -/
theorem C8_no_logger_silent (i : Nat) (M : List ModelOverride)
    (dd : DetectorOverride) (rp : Option String) (s : ProcState) :
    ((constructorFn M dd rp ⟨i, false⟩ s).2.logs = []
      ∧ (constructorFn M dd rp ⟨i, false⟩ s).2.warns = []
      ∧ (constructorFn M dd rp ⟨i, false⟩ s).1
          = (constructorFn M dd rp ⟨i, true⟩ s).1)
  ∧ ((startFn ⟨i, false⟩ s).2.logs = []
      ∧ (startFn ⟨i, false⟩ s).2.warns = []
      ∧ (startFn ⟨i, false⟩ s).2.resets = (startFn ⟨i, true⟩ s).2.resets
      ∧ (startFn ⟨i, false⟩ s).1 = (startFn ⟨i, true⟩ s).1)
  ∧ ((stopFn ⟨i, false⟩ s).2.logs = []
      ∧ (stopFn ⟨i, false⟩ s).2.warns = []
      ∧ (stopFn ⟨i, false⟩ s).1 = (stopFn ⟨i, true⟩ s).1)
  ∧ ((pauseFn ⟨i, false⟩ s).2.logs = []
      ∧ (pauseFn ⟨i, false⟩ s).2.warns = []
      ∧ (pauseFn ⟨i, false⟩ s).1 = (pauseFn ⟨i, true⟩ s).1)
  ∧ ((resumeFn ⟨i, false⟩ s).2.logs = []
      ∧ (resumeFn ⟨i, false⟩ s).2.warns = []
      ∧ (resumeFn ⟨i, false⟩ s).2.resets = (resumeFn ⟨i, true⟩ s).2.resets
      ∧ (resumeFn ⟨i, false⟩ s).1 = (resumeFn ⟨i, true⟩ s).1) :=
  ⟨⟨rfl, rfl, rfl⟩, ⟨rfl, rfl, rfl, rfl⟩, ⟨rfl, rfl, rfl⟩, ⟨rfl, rfl, rfl⟩,
   ⟨rfl, rfl, rfl, rfl⟩⟩

/-- Claim C9: the resolved detector options always carry the model
collection of THIS construction: a `models` field supplied in the caller's
detector override has no effect (the `{ models: models }` literal is
assigned last), and `detectorOptions.models` equals the freshly resolved
collection. -/
theorem C9_models_merged_last (M : List ModelOverride) (rOv : Option String)
    (junk : List Model) (rp : Option String) (inst : Instance)
    (s : ProcState) :
    (constructorFn M ⟨rOv, some junk⟩ rp inst s).1
        = (constructorFn M ⟨rOv, none⟩ rp inst s).1
  ∧ (constructorFn M ⟨rOv, none⟩ rp inst s).1.detectorOptions.map
        DetectorBase.models
      = some ((constructorFn M ⟨rOv, none⟩ rp inst s).1.models) :=
  ⟨rfl, rfl⟩

/-- Claim C10: when no detector exists yet (the first `start()` after
construction), `setupDetector` makes no `reset()` call and still completes,
leaving a live detector installed. -/
theorem C10_no_reset_on_first_start (inst : Instance) (s : ProcState)
    (h : s.detector = none) :
    (startFn inst s).2.resets = []
  ∧ (startFn inst s).1.detector.isSome = true := by
  constructor
  · simp [startFn, setupDetector, h]
  · rfl

/-- Witness for C10: first `start()` on a freshly constructed listener. -/
theorem C10_no_reset_on_first_start_witness :
    ((constructorFn [] ⟨none, none⟩ none ⟨7, true⟩ initState).1.detector
        = none)
  ∧ ((startFn ⟨7, true⟩
        (constructorFn [] ⟨none, none⟩ none ⟨7, true⟩ initState).1).2.resets
        = []
    ∧ (startFn ⟨7, true⟩
        (constructorFn [] ⟨none, none⟩ none ⟨7, true⟩
          initState).1).1.detector.isSome = true) :=
  ⟨rfl, C10_no_reset_on_first_start ⟨7, true⟩
    (constructorFn [] ⟨none, none⟩ none ⟨7, true⟩ initState).1 rfl⟩

end Hotword
